import Mathlib

/-!
Verification of the SGX attestation verifier (`src/ext/sgx/mod.rs`) and the
enclave ABI types (`src/ext/sgx/types/attr.rs`) of the steward repository.

The certificate, DER and cryptography crates (`x509`, `der`, `pkcs8`) are
external collaborators; they are modelled abstractly as function parameters
bundled in `SgxModel`, so every theorem quantifies over their behaviour.
The control flow of `Sgx::is_trusted` and `Sgx::verify` is embedded faithfully,
including the panicking paths (`path.0[0]` indexing and `.unwrap()` on
`verify_raw`), which are represented by explicit `panic` outcomes.
-/

namespace Steward

/-- An X.509 AlgorithmIdentifier: object identifier (as its arc list) plus
optional parameters (abstract DER bytes). Equality is structural, as in the
`pkcs8` crate's derived `PartialEq`. -/
structure AlgorithmIdentifier where
  oid : List Nat
  parameters : Option (List Nat)
deriving DecidableEq

/-- The signed body (`TbsCertificate`) of a certificate. `body` abstracts all
fields other than the subject-public-key-info algorithm, which `Sgx::verify`
inspects; structural equality of this structure models the `==` comparison in
`is_trusted`. -/
structure TbsCertificate where
  body : Nat
  subject_public_key_info_alg : AlgorithmIdentifier
deriving DecidableEq

/-- An X.509 certificate, reduced to its signed body (the signature fields are
never compared by the embedded code paths). -/
structure Certificate where
  tbs_certificate : TbsCertificate
deriving DecidableEq

/-- The `Evidence` DER sequence of `mod.rs`: a PCK certificate and opaque
quote bytes. -/
structure Evidence where
  pck : Certificate
  quote : List Nat
deriving DecidableEq

/-- The parts of a parsed `Quote` that `Sgx::verify` uses: the 384-byte report
body (as transmuted to bytes) and the report signature handed to `to_der`. -/
structure Quote where
  body : List Nat
  report_sig : List Nat
deriving DecidableEq

/-- The external collaborators of the SGX verifier, modelled as abstract
functions, together with the result of decoding the embedded `sgx.pkipath`
constant (`PkiPath::from_der(Self::ROOT)`: `none` models a DER decode error). -/
structure SgxModel where
  rootPath : Option (List Certificate)
  verify_crt : TbsCertificate → Certificate → Option TbsCertificate
  decodeEvidence : List Nat → Option Evidence
  parseQuote : List Nat → Option Quote
  sigToDer : List Nat → Option (List Nat)
  verify_raw : TbsCertificate → List Nat → AlgorithmIdentifier → List Nat → Bool

/-- Outcome of `Sgx::is_trusted`: success carrying a signed body, the two
`anyhow` error paths (root-path decode failure propagated by `?`, and the
`"sgx pck is untrusted"` error), or a panic (out-of-bounds `path.0[0]`). -/
inductive TrustResult
  | ok (tbs : TbsCertificate)
  | rootDecodeError
  | untrustedSigner
  | panic
deriving DecidableEq

/-- One iteration of the `for cert in path.0.iter().chain([pck])` loop:
`signer = signer.and_then(|s| s.verify_crt(cert).ok())`. -/
def chainStep (m : SgxModel) (s : Option TbsCertificate) (c : Certificate) :
    Option TbsCertificate :=
  s.bind fun t => m.verify_crt t c

/-- Embedding of `Sgx::is_trusted` (mod.rs:34-49): decode the embedded root
path, initialize the expected signer to `path.0[0].tbs_certificate` (a panic
when the decoded path is empty), fold the verification step over the path
followed by the candidate `pck`, and succeed only when the surviving signer
equals `pck.tbs_certificate`. -/
def is_trusted (m : SgxModel) (pck : Certificate) : TrustResult :=
  match m.rootPath with
  | none => TrustResult.rootDecodeError
  | some [] => TrustResult.panic
  | some (c0 :: rest) =>
    match ((c0 :: rest) ++ [pck]).foldl (chainStep m) (some c0.tbs_certificate) with
    | some s =>
      if s = pck.tbs_certificate then TrustResult.ok pck.tbs_certificate
      else TrustResult.untrustedSigner
    | none => TrustResult.untrustedSigner

/-- The spec's description of the chain walk: starting from an expected
issuer, validate each certificate in order against the current expected
issuer, short-circuiting on the first failure, and return the final expected
issuer when every step succeeded. -/
def walkChain (m : SgxModel) (issuer : TbsCertificate) :
    List Certificate → Option TbsCertificate
  | [] => some issuer
  | c :: rest =>
    match m.verify_crt issuer c with
    | none => none
    | some next => walkChain m next rest

theorem foldl_chainStep_none (m : SgxModel) (l : List Certificate) :
    l.foldl (chainStep m) none = none := by
  induction l with
  | nil => rfl
  | cons c rest ih => simpa [chainStep] using ih

theorem foldl_chainStep_eq_walkChain (m : SgxModel) (l : List Certificate)
    (i : TbsCertificate) :
    l.foldl (chainStep m) (some i) = walkChain m i l := by
  induction l generalizing i with
  | nil => rfl
  | cons c rest ih =>
    cases h : m.verify_crt i c with
    | none => simp [walkChain, h, chainStep, foldl_chainStep_none]
    | some next => simp [walkChain, h, chainStep, ih]

/-- C1: when the embedded root path decodes to a non-empty certificate list,
`is_trusted` succeeds if and only if the walk that starts from the root's
signed body and validates every certificate of [root-path entries...,
candidate] in order (short-circuiting on the first failure) ends with an
expected issuer structurally equal to the candidate's signed body; on success
it returns exactly the candidate's signed body, and in every other case it
returns the untrusted-signer error. -/
theorem is_trusted_spec (m : SgxModel) (c0 : Certificate) (rest : List Certificate)
    (pck : Certificate) (hroot : m.rootPath = some (c0 :: rest)) :
    is_trusted m pck =
      if walkChain m c0.tbs_certificate ((c0 :: rest) ++ [pck])
          = some pck.tbs_certificate
      then TrustResult.ok pck.tbs_certificate
      else TrustResult.untrustedSigner := by
  unfold is_trusted
  rw [hroot]
  dsimp only
  rw [foldl_chainStep_eq_walkChain]
  cases h : walkChain m c0.tbs_certificate ((c0 :: rest) ++ [pck]) with
  | none => simp
  | some s =>
    by_cases hs : s = pck.tbs_certificate
    · simp [hs]
    · simp [hs]

/-- An elliptic-curve public-key algorithm identifier (id-ecPublicKey with
P-256 parameters) used to build concrete witnesses. -/
def algP256 : AlgorithmIdentifier :=
  { oid := [1, 2, 840, 10045, 2, 1], parameters := some [1, 2, 840, 10045, 3, 1, 7] }

/-- Concrete root certificate for witnesses. -/
def certRoot : Certificate := { tbs_certificate := { body := 0, subject_public_key_info_alg := algP256 } }

/-- Concrete PCK certificate for witnesses. -/
def certPck : Certificate := { tbs_certificate := { body := 1, subject_public_key_info_alg := algP256 } }

/-- Concrete model for witnesses: the root verifies itself and the PCK, and
everything downstream of the trust chain succeeds. -/
def mW : SgxModel :=
  { rootPath := some [certRoot]
    verify_crt := fun t c =>
      if t = certRoot.tbs_certificate then some c.tbs_certificate else none
    decodeEvidence := fun _ => some { pck := certPck, quote := [0] }
    parseQuote := fun _ => some { body := [0], report_sig := [0] }
    sigToDer := fun l => some l
    verify_raw := fun _ _ _ _ => true }

/-- Witness for C1 at the concrete one-certificate root path. -/
theorem is_trusted_spec_witness :
    is_trusted mW certPck =
      if walkChain mW certRoot.tbs_certificate (([certRoot] : List Certificate) ++ [certPck])
          = some certPck.tbs_certificate
      then TrustResult.ok certPck.tbs_certificate
      else TrustResult.untrustedSigner :=
  is_trusted_spec mW certRoot [] certPck rfl

/-- C10: `is_trusted` panics — modelling the unconditional out-of-bounds
`path.0[0]` indexing — exactly when the embedded root path decodes to an
empty certificate sequence; in that case it neither returns the
untrusted-signer error nor a decode error, and with a non-empty decoded path
the indexing panic cannot occur. -/
theorem is_trusted_panics_iff_empty_path (m : SgxModel) (pck : Certificate) :
    is_trusted m pck = TrustResult.panic ↔ m.rootPath = some [] := by
  unfold is_trusted
  cases h : m.rootPath with
  | none => simp
  | some path =>
    cases path with
    | nil => simp
    | cons c0 rest =>
      dsimp only
      cases hfold : ((c0 :: rest) ++ [pck]).foldl (chainStep m) (some c0.tbs_certificate) with
      | none => simp
      | some s => by_cases hs : s = pck.tbs_certificate <;> simp [hs]

/-- The fields of `CertReqInfo` that `Sgx::verify` reads: the algorithm of the
requester's public key (`cri.public_key.algorithm`). -/
structure CertReqInfo where
  public_key_alg : AlgorithmIdentifier
deriving DecidableEq

/-- An X.509 extension as passed to `verify`: the criticality flag and the
raw extension value bytes. -/
structure Extension where
  critical : Bool
  extn_value : List Nat
deriving DecidableEq

/-- The distinguishable error kinds produced by `Sgx::verify` (each one is a
distinct `anyhow` error or error context in the source). -/
inductive VerifyError
  | protocolViolation
  | evidenceDecode
  | rootDecode
  | untrustedSigner
  | algorithmMismatch
  | quoteParse
  | sigEncode
deriving DecidableEq

/-- The observable outcome of a call to `Sgx::verify`: a returned value, a
returned error, or a panic (the function never returns in that case). -/
inductive VerifyOutcome
  | ok (b : Bool)
  | err (e : VerifyError)
  | panic
deriving DecidableEq

/-- The hardcoded `ECDSA_WITH_SHA_256` algorithm identifier
(1.2.840.10045.4.3.2, absent parameters) passed to `verify_raw`. -/
def ECDSA_WITH_SHA_256 : AlgorithmIdentifier :=
  { oid := [1, 2, 840, 10045, 4, 3, 2], parameters := none }

/-- Embedding of `Sgx::verify` (mod.rs:56-110): reject critical extensions,
decode the evidence, validate the PCK through `is_trusted`, enforce that the
request's public-key algorithm equals the PCK's, parse the quote, re-encode
the report signature, and verify the report body. The final
`pck.verify_raw(...).unwrap()` (mod.rs:95-103, its `.context(...)?` line
commented out) makes a failed signature verification a panic, not an error.
The `dbg` flag is read only by the empty `if !dbg {}` placeholder. -/
def verify (m : SgxModel) (cri : CertReqInfo) (ext : Extension) (dbg : Bool) :
    VerifyOutcome :=
  if ext.critical then VerifyOutcome.err VerifyError.protocolViolation
  else
    match m.decodeEvidence ext.extn_value with
    | none => VerifyOutcome.err VerifyError.evidenceDecode
    | some evidence =>
      match is_trusted m evidence.pck with
      | TrustResult.rootDecodeError => VerifyOutcome.err VerifyError.rootDecode
      | TrustResult.panic => VerifyOutcome.panic
      | TrustResult.untrustedSigner => VerifyOutcome.err VerifyError.untrustedSigner
      | TrustResult.ok pck =>
        if cri.public_key_alg ≠ pck.subject_public_key_info_alg then
          VerifyOutcome.err VerifyError.algorithmMismatch
        else
          match m.parseQuote evidence.quote with
          | none => VerifyOutcome.err VerifyError.quoteParse
          | some quote =>
            match m.sigToDer quote.report_sig with
            | none => VerifyOutcome.err VerifyError.sigEncode
            | some signature =>
              if m.verify_raw pck quote.body ECDSA_WITH_SHA_256 signature then
                VerifyOutcome.ok true
              else VerifyOutcome.panic

/-- C4: a critical extension is rejected with the protocol-violation error
before any other step, for every model (hence independently of the decoder,
the trust chain and the signature checks), every request and every payload. -/
theorem verify_critical_rejected (m : SgxModel) (cri : CertReqInfo)
    (ext : Extension) (dbg : Bool) (h : ext.critical = true) :
    verify m cri ext dbg = VerifyOutcome.err VerifyError.protocolViolation := by
  unfold verify
  rw [h]
  rfl

/-- A critical extension with a well-formed payload, for the C4 witness. -/
def extCritical : Extension := { critical := true, extn_value := [0] }

/-- Witness for C4: the critical extension is rejected even under the model
`mW` in which every other check would succeed. -/
theorem verify_critical_rejected_witness :
    verify mW { public_key_alg := algP256 } extCritical false
      = VerifyOutcome.err VerifyError.protocolViolation :=
  verify_critical_rejected mW { public_key_alg := algP256 } extCritical false rfl

/-- C3: whenever the extension is non-critical, the evidence decodes, and the
embedded signer is trusted, an inequality between the request's public-key
algorithm identifier and the verified signer's public-key algorithm identifier
makes `verify` fail with the algorithm-mismatch error. The statement holds for
every model, so the result does not depend on `parseQuote`, `sigToDer` or
`verify_raw`: the check happens before the quote bytes are parsed. -/
theorem verify_algorithm_mismatch (m : SgxModel) (cri : CertReqInfo)
    (ext : Extension) (dbg : Bool) (ev : Evidence) (pckTbs : TbsCertificate)
    (hc : ext.critical = false)
    (hdec : m.decodeEvidence ext.extn_value = some ev)
    (htr : is_trusted m ev.pck = TrustResult.ok pckTbs)
    (halg : cri.public_key_alg ≠ pckTbs.subject_public_key_info_alg) :
    verify m cri ext dbg = VerifyOutcome.err VerifyError.algorithmMismatch := by
  simp [verify, hc, hdec, htr, halg]

/-- A non-critical extension carrying the evidence payload. -/
def extEvidence : Extension := { critical := false, extn_value := [0] }

/-- An RSA public-key algorithm identifier (1.2.840.113549.1.1.1), different
from `algP256`, used to exercise the algorithm-binding check. -/
def algRsa : AlgorithmIdentifier :=
  { oid := [1, 2, 840, 113549, 1, 1, 1], parameters := none }

/-- Witness for C3: under `mW` (trusted signer, valid quote and signature), a
request whose key algorithm is RSA while the signer's is P-256 fails with the
algorithm-mismatch error. -/
theorem verify_algorithm_mismatch_witness :
    verify mW { public_key_alg := algRsa } extEvidence false
      = VerifyOutcome.err VerifyError.algorithmMismatch :=
  verify_algorithm_mismatch mW { public_key_alg := algRsa } extEvidence false
    { pck := certPck, quote := [0] } certPck.tbs_certificate
    rfl rfl (by decide) (by decide)

/-- C2 (code bug): when every step up to and including the signature encoding
succeeds but `verify_raw` rejects the report body's signature, `verify`
panics (the `.unwrap()` at mod.rs:103) instead of returning the
invalid-signature error that the commented-out
`.context("sgx quote contains invalid signature")?` would have produced. -/
theorem verify_bad_signature_panics (m : SgxModel) (cri : CertReqInfo)
    (ext : Extension) (dbg : Bool) (ev : Evidence) (pckTbs : TbsCertificate)
    (q : Quote) (sig : List Nat)
    (hc : ext.critical = false)
    (hdec : m.decodeEvidence ext.extn_value = some ev)
    (htr : is_trusted m ev.pck = TrustResult.ok pckTbs)
    (halg : cri.public_key_alg = pckTbs.subject_public_key_info_alg)
    (hq : m.parseQuote ev.quote = some q)
    (hs : m.sigToDer q.report_sig = some sig)
    (hv : m.verify_raw pckTbs q.body ECDSA_WITH_SHA_256 sig = false) :
    verify m cri ext dbg = VerifyOutcome.panic := by
  simp [verify, hc, hdec, htr, halg, hq, hs, hv]

/-- Concrete model identical to `mW` except that signature verification
rejects every signature. -/
def mBadSig : SgxModel :=
  { rootPath := some [certRoot]
    verify_crt := fun t c =>
      if t = certRoot.tbs_certificate then some c.tbs_certificate else none
    decodeEvidence := fun _ => some { pck := certPck, quote := [0] }
    parseQuote := fun _ => some { body := [0], report_sig := [0] }
    sigToDer := fun l => some l
    verify_raw := fun _ _ _ _ => false }

/-- Witness for C2: a concrete run that reaches signature verification with an
invalid signature and panics. -/
theorem verify_bad_signature_panics_witness :
    verify mBadSig { public_key_alg := algP256 } extEvidence false
      = VerifyOutcome.panic :=
  verify_bad_signature_panics mBadSig { public_key_alg := algP256 } extEvidence false
    { pck := certPck, quote := [0] } certPck.tbs_certificate
    { body := [0], report_sig := [0] } [0]
    rfl rfl (by decide) rfl rfl rfl rfl

/-- C9 (code bug): evaluating `verify` shows that a returned success always
carries `true` (the only `Ok` in the source is `Ok(true)`), but on an input
whose quote signature is invalid `verify` panics, returning neither a success
nor an error. -/
theorem verify_ok_true_or_panic_eval :
    verify mW { public_key_alg := algP256 } extEvidence false
        = VerifyOutcome.ok true ∧
      verify mBadSig { public_key_alg := algP256 } extEvidence false
        = VerifyOutcome.panic := by
  constructor
  · rfl
  · rfl

/-- The enclave attribute flags of `attr.rs` (Section 38.7.1), one constructor
per declared flag. -/
inductive Flags
  | INIT
  | DEBUG
  | BIT64
  | PROV_KEY
  | EINIT_KEY
  | CET
  | KSS
deriving DecidableEq

/-- The bit value of each `Flags` constructor, as declared in `attr.rs`. -/
def Flags.val : Flags → Nat
  | .INIT => 1
  | .DEBUG => 2
  | .BIT64 => 4
  | .PROV_KEY => 16
  | .EINIT_KEY => 32
  | .CET => 64
  | .KSS => 128

/-- The extended-state (XFRM) flags of `attr.rs` (Section 42.7.2.1). -/
inductive Xfrm
  | X87
  | SSE
  | AVX
  | BNDREG
  | BNDCSR
  | OPMASK
  | ZMM_HI256
  | HI16_ZMM
  | PKRU
  | CETU
  | CETS
deriving DecidableEq

/-- The bit value of each `Xfrm` constructor, as declared in `attr.rs`. -/
def Xfrm.val : Xfrm → Nat
  | .X87 => 1
  | .SSE => 2
  | .AVX => 4
  | .BNDREG => 8
  | .BNDCSR => 16
  | .OPMASK => 32
  | .ZMM_HI256 => 64
  | .HI16_ZMM => 128
  | .PKRU => 512
  | .CETU => 2048
  | .CETS => 4096

/-- The mask of all declared `Flags` bits (the full `FlagSet<Flags>`). -/
def flagsFull : Nat :=
  Flags.INIT.val ||| Flags.DEBUG.val ||| Flags.BIT64.val ||| Flags.PROV_KEY.val
    ||| Flags.EINIT_KEY.val ||| Flags.CET.val ||| Flags.KSS.val

/-- The mask of all declared `Xfrm` bits (the full `FlagSet<Xfrm>`). -/
def xfrmFull : Nat :=
  Xfrm.X87.val ||| Xfrm.SSE.val ||| Xfrm.AVX.val ||| Xfrm.BNDREG.val
    ||| Xfrm.BNDCSR.val ||| Xfrm.OPMASK.val ||| Xfrm.ZMM_HI256.val
    ||| Xfrm.HI16_ZMM.val ||| Xfrm.PKRU.val ||| Xfrm.CETU.val ||| Xfrm.CETS.val

/-- The `Attributes` structure of `attr.rs`: a `FlagSet<Flags>` and a
`FlagSet<Xfrm>` (through `XfrmWrapper`), each modelled as its underlying
`u64` bit mask. -/
structure Attributes where
  flags : Nat
  xfrm : Nat
deriving DecidableEq

/-- A `FlagSet` value is well formed when it only holds declared bits — the
invariant the flagset crate maintains on every `FlagSet` it constructs. -/
def Attributes.wf (a : Attributes) : Prop :=
  a.flags &&& flagsFull = a.flags ∧ a.xfrm &&& xfrmFull = a.xfrm

/-- The flagset crate's `Not` on a `FlagSet`: the complement restricted to the
declared bits, `full & !bits`, written here as `full ^^^ (full &&& bits)`
(the two agree bit by bit). -/
def fsNot (full bits : Nat) : Nat := full ^^^ (full &&& bits)

/-- `impl Not for Attributes` (attr.rs:138-147): componentwise flag-set
complement. -/
def Attributes.notOp (a : Attributes) : Attributes :=
  { flags := fsNot flagsFull a.flags, xfrm := fsNot xfrmFull a.xfrm }

/-- `impl BitAnd for Attributes` (attr.rs:149-158). -/
def Attributes.andOp (a b : Attributes) : Attributes :=
  { flags := a.flags &&& b.flags, xfrm := a.xfrm &&& b.xfrm }

/-- `impl BitOr for Attributes` (attr.rs:160-169). -/
def Attributes.orOp (a b : Attributes) : Attributes :=
  { flags := a.flags ||| b.flags, xfrm := a.xfrm ||| b.xfrm }

/-- `impl BitXor for Attributes` (attr.rs:171-180). -/
def Attributes.xorOp (a b : Attributes) : Attributes :=
  { flags := a.flags ^^^ b.flags, xfrm := a.xfrm ^^^ b.xfrm }

theorem fsNot_fsNot (full bits : Nat) (h : bits &&& full = bits) :
    fsNot full (fsNot full bits) = bits := by
  have hb : ∀ i, bits.testBit i = (bits.testBit i && full.testBit i) := by
    intro i
    conv_lhs => rw [← h]
    simp [Nat.testBit_land]
  apply Nat.eq_of_testBit_eq
  intro i
  have hi := hb i
  simp only [fsNot, Nat.testBit_xor, Nat.testBit_land]
  cases hf : full.testBit i <;> cases hx : bits.testBit i <;>
    simp_all

/-- C7: the whole-structure bitwise operations on `Attributes` act
componentwise on the flags and xfrm masks, and double complement is the
identity on every well-formed value. -/
theorem attributes_bitwise_algebra (a b : Attributes) (ha : a.wf) :
    a.notOp.notOp = a ∧
      (a.andOp b = { flags := a.flags &&& b.flags, xfrm := a.xfrm &&& b.xfrm } ∧
        a.orOp b = { flags := a.flags ||| b.flags, xfrm := a.xfrm ||| b.xfrm } ∧
        a.xorOp b = { flags := a.flags ^^^ b.flags, xfrm := a.xfrm ^^^ b.xfrm }) := by
  refine ⟨?_, rfl, rfl, rfl⟩
  obtain ⟨hf, hx⟩ := ha
  simp [Attributes.notOp, fsNot_fsNot flagsFull a.flags hf,
    fsNot_fsNot xfrmFull a.xfrm hx]

/-- Witness for C7 at concrete well-formed attribute values. -/
theorem attributes_bitwise_algebra_witness :
    (({ flags := 6, xfrm := 3 } : Attributes).wf) ∧
      (({ flags := 6, xfrm := 3 } : Attributes).notOp.notOp
          = ({ flags := 6, xfrm := 3 } : Attributes) ∧
        (({ flags := 6, xfrm := 3 } : Attributes).andOp { flags := 4, xfrm := 1 }
            = { flags := 6 &&& 4, xfrm := 3 &&& 1 } ∧
          ({ flags := 6, xfrm := 3 } : Attributes).orOp { flags := 4, xfrm := 1 }
              = { flags := 6 ||| 4, xfrm := 3 ||| 1 } ∧
            ({ flags := 6, xfrm := 3 } : Attributes).xorOp { flags := 4, xfrm := 1 }
                = { flags := 6 ^^^ 4, xfrm := 3 ^^^ 1 })) :=
  ⟨⟨rfl, rfl⟩,
    attributes_bitwise_algebra { flags := 6, xfrm := 3 } { flags := 4, xfrm := 1 }
      ⟨rfl, rfl⟩⟩

/-- The flagset crate's `FlagSet::default()`: the empty set (the underlying
integer's zero). The `derive(Default)` on `Attributes` uses this for the bare
`FlagSet<Flags>` field. -/
def flagSetEmpty : Nat := 0

/-- `impl Default for Flags` (attr.rs:35-39): the single flag `BIT64`. This
impl is on the flag enum itself, not on `FlagSet<Flags>`, so the derived
`Default` of `Attributes` never consults it. -/
def Flags.defaultFlag : Nat := Flags.BIT64.val

/-- `impl Default for XfrmWrapper` (attr.rs:75-79): `X87 | SSE`. -/
def XfrmWrapper.default : Nat := Xfrm.X87.val ||| Xfrm.SSE.val

/-- The `derive(Default)` on `Attributes` (attr.rs:83): field-wise defaults,
`FlagSet::<Flags>::default()` (empty) for `flags` and `XfrmWrapper::default()`
for `xfrm`. -/
def Attributes.default : Attributes :=
  { flags := flagSetEmpty, xfrm := XfrmWrapper.default }

/-- C6 (code bug): the default `Attributes` value has an empty flags
component — not the `BIT64` flag that `impl Default for Flags` defines and
that the specification requires — while its xfrm component is `X87 | SSE` as
specified. -/
theorem attributes_default_eval :
    Attributes.default.flags = 0 ∧
      (Flags.defaultFlag = Flags.BIT64.val ∧
        Attributes.default.xfrm = (Xfrm.X87.val ||| Xfrm.SSE.val)) := by
  refine ⟨rfl, rfl, rfl⟩

/-- The little-endian byte representation of a value on `n` bytes. -/
def leBytes : Nat → Nat → List Nat
  | 0, _ => []
  | n + 1, v => (v % 256) :: leBytes n (v / 256)

theorem leBytes_length (n v : Nat) : (leBytes n v).length = n := by
  induction n generalizing v with
  | zero => rfl
  | succ n ih => simp [leBytes, ih]

theorem leBytes_inj (n : Nat) (a b : Nat) (ha : a < 256 ^ n) (hb : b < 256 ^ n)
    (h : leBytes n a = leBytes n b) : a = b := by
  induction n generalizing a b with
  | zero =>
    simp at ha hb
    omega
  | succ n ih =>
    simp only [leBytes, List.cons.injEq] at h
    have hda : a / 256 < 256 ^ n := by
      rw [pow_succ] at ha
      exact Nat.div_lt_of_lt_mul (by omega)
    have hdb : b / 256 < 256 ^ n := by
      rw [pow_succ] at hb
      exact Nat.div_lt_of_lt_mul (by omega)
    have hd := ih (a / 256) (b / 256) hda hdb h.2
    omega

/-- The in-memory byte representation of an `Attributes` value under
`repr(C, packed(4))`: the 8 little-endian bytes of the `flags` u64 at offset 0
followed by the 8 little-endian bytes of the `xfrm` u64 at offset 8. This is
what the claim says `Attributes::to_vec` returns. -/
def Attributes.reprBytes (a : Attributes) : List Nat :=
  leBytes 8 a.flags ++ leBytes 8 a.xfrm

/-- What `Attributes::to_vec` (attr.rs:125-135) actually reads: it casts
`&self` — a `&&Attributes`, i.e. a pointer to the stack slot holding the
`self` reference — to `*const u8` and copies `size_of::<Attributes>()` = 16
bytes from there. On a 64-bit little-endian target the first 8 bytes are the
address of the `Attributes` value and the next 8 bytes are whatever sits past
the reference's stack slot (an out-of-bounds read). The result therefore
depends only on the address and the adjacent stack bytes, never on the
`Attributes` value itself. -/
def Attributes.to_vec_code (selfAddr : Nat) (adjacentStack : List Nat) : List Nat :=
  leBytes 8 selfAddr ++ adjacentStack

/-- C5 (code bug): for every nonzero 64-bit address of the value and every
content of the adjacent stack bytes, the bytes `to_vec` copies differ from the
in-memory representation of the default `Attributes` value — the copied bytes
do not even depend on the attribute value, only on where its reference was
spilled. -/
theorem to_vec_reads_reference_not_struct (selfAddr : Nat) (adjacentStack : List Nat)
    (h0 : selfAddr ≠ 0) (h64 : selfAddr < 256 ^ 8) :
    Attributes.to_vec_code selfAddr adjacentStack
      ≠ Attributes.reprBytes Attributes.default := by
  intro h
  unfold Attributes.to_vec_code Attributes.reprBytes at h
  have hpre : leBytes 8 selfAddr = leBytes 8 Attributes.default.flags :=
    (List.append_inj h (by rw [leBytes_length, leBytes_length])).1
  have : selfAddr = Attributes.default.flags :=
    leBytes_inj 8 selfAddr Attributes.default.flags h64 (by decide) hpre
  simp [Attributes.default, flagSetEmpty] at this
  exact h0 this

/-- Witness for C5 at a concrete spilled address and stack content. -/
theorem to_vec_reads_reference_not_struct_witness :
    (Attributes.to_vec_code 140737488355328 (List.replicate 8 0)
        = Attributes.reprBytes Attributes.default → False) ∧
      Attributes.reprBytes Attributes.default
        = [0, 0, 0, 0, 0, 0, 0, 0, 3, 0, 0, 0, 0, 0, 0, 0] :=
  ⟨fun h => to_vec_reads_reference_not_struct 140737488355328 (List.replicate 8 0)
      (by decide) (by decide) h,
    by decide⟩

/-- `off` rounded up to the next multiple of the alignment `a`. -/
def alignUp (off a : Nat) : Nat := (off + a - 1) / a * a

/-- A computed structure layout: per-field byte offsets in declaration order,
total size and alignment. -/
structure StructLayout where
  offsets : List Nat
  size : Nat
  align : Nat
deriving DecidableEq

/-- The `repr(C, packed(N))` layout algorithm: fields are laid out in order,
each aligned to the minimum of its natural alignment and `N`; the structure's
alignment is the maximum of the capped field alignments and its size is padded
to a multiple of that alignment. `fields` lists each field as
(size, natural alignment). -/
def reprCPackedLayout (packN : Nat) (fields : List (Nat × Nat)) : StructLayout :=
  let step := fun (acc : StructLayout) (fld : Nat × Nat) =>
    let fa := min fld.2 packN
    let off := alignUp acc.size fa
    { offsets := acc.offsets ++ [off], size := off + fld.1, align := max acc.align fa }
  let l := fields.foldl step { offsets := [], size := 0, align := 1 }
  { l with size := alignUp l.size l.align }

/-- The fields of `Attributes` (attr.rs:82-88) as (size, natural alignment):
`flags: FlagSet<Flags>` is a transparent `u64` (8, 8) and `xfrm: XfrmWrapper`
wraps a transparent `u64` (8, 8). -/
def attributesFields : List (Nat × Nat) := [(8, 8), (8, 8)]

/-- The layout of `Attributes` under its `repr(C, packed(4))` attribute. -/
def attributesLayout : StructLayout := reprCPackedLayout 4 attributesFields

/-- The alignment assertions of the `testaso!` invocation of attr.rs:182-185
(one `assert_eq!(align_of::<T>(), a)` per declared structure, all inside the
dedicated `align` test). -/
def testasoAlignAssertions : List (String × Nat) := [("Attributes", 4)]

/-- The size assertions of the `testaso!` invocation (the dedicated `size`
test). -/
def testasoSizeAssertions : List (String × Nat) := [("Attributes", 16)]

/-- The per-field offset assertions of the `testaso!` invocation (the
dedicated `offsets` test): the invocation `struct Attributes: 4, 16 => {}`
declares an empty field list, so the generated test asserts nothing. -/
def testasoOffsetAssertions : List (String × String × Nat) := []

/-- C8 counterexample: the `testaso!` invocation for `Attributes` contains no
per-field offset assertion at all — in particular none for `flags` at offset 0
or for `xfrm` at offset 8 — refuting the claim that each field's offset is
asserted by a dedicated layout test. -/
theorem testaso_offsets_unasserted :
    testasoOffsetAssertions = [] ∧
      attributesLayout = { offsets := [0, 8], size := 16, align := 4 } := by
  exact ⟨rfl, by decide⟩

/-- C8 (amended): `Attributes` has size 16, alignment 4 and field offsets 0
(`flags`) and 8 (`xfrm`) under `repr(C, packed(4))`; the layout-test harness
asserts the alignment and the size each in its own dedicated test, but the
invocation's empty field list leaves the per-field offsets unasserted. -/
theorem attributes_layout_spec :
    attributesLayout = { offsets := [0, 8], size := 16, align := 4 } ∧
      (("Attributes", 4) ∈ testasoAlignAssertions ∧
        ("Attributes", 16) ∈ testasoSizeAssertions ∧
          testasoOffsetAssertions = []) := by
  refine ⟨by decide, by simp [testasoAlignAssertions], by simp [testasoSizeAssertions], rfl⟩

end Steward
